import Mathlib

set_option linter.unusedVariables false

/-!
Shallow embedding of the simple-content-pipeline core (Go) in Lean 4.

Conventions of the embedding:
* Go errors are modelled as their message strings (GoError); a fallible Go
  call returning (T, error) becomes Except GoError T.
* Go maps are modelled as association lists; map indexing without the ok flag
  becomes lookup followed by getD of the zero value, matching Go semantics.
* External collaborators (the DBOS runtime, the simple-content store, image
  codecs, SQL round-trips) are modelled as explicit state or as outcome
  parameters threaded through the embedded control flow; the control flow
  itself follows the Go source branch by branch.
-/

namespace SCP

/-- Go errors are modelled as their message strings. -/
abbrev GoError := String

/-- Values stored in a Go map of type map with interface values, as used in
WorkflowResult.Outputs. -/
inductive GoValue where
  | str : String → GoValue
  | int : Int → GoValue
  | bool : Bool → GoValue
deriving DecidableEq, Repr

/-- Byte streams are modelled as lists of byte values. -/
abbrev Bytes := List Nat

/-- pipeline.ProcessRequest (pkg/pipeline): the submission payload.
Versions and Metadata are Go maps, modelled as association lists. -/
structure ProcessRequest where
  contentID : String
  objectKey : String
  contentHash : Option String
  job : String
  versions : List (String × Int)
  metadata : List (String × String)
deriving DecidableEq, Repr

/-- pipeline.ProcessResponse: returned by the submission surface. -/
structure ProcessResponse where
  runID : String
  dedupeSeenCount : Int
deriving DecidableEq, Repr

/-- pipeline.JobThumbnail constant. -/
def JobThumbnail : String := "thumbnail"

/-- pipeline.DerivedTypeThumbnail constant. -/
def DerivedTypeThumbnail : String := "thumbnail"

/-- workflows.WorkflowResult: Success flag, optional error (as its message),
and the Outputs map. -/
structure WorkflowResult where
  success : Bool
  error : Option GoError
  outputs : List (String × GoValue)
deriving DecidableEq, Repr

/-- workflows.ErrWorkflowNotFound (internal/workflows/errors.go). -/
def errWorkflowNotFound : GoError := "workflow not found"

/-- mapDBOSStatus (internal/workflows/types.go): maps DBOS status strings to
the externally reported state vocabulary. The Go switch statement is a chain
of equality tests, embedded as such. -/
def mapDBOSStatus (dbosStatus : String) : String :=
  if dbosStatus = "PENDING" then "pending"
  else if dbosStatus = "ENQUEUED" then "pending"
  else if dbosStatus = "SUCCESS" then "succeeded"
  else if dbosStatus = "ERROR" then "failed"
  else if dbosStatus = "RETRIES_EXCEEDED" then "failed"
  else "running"

/-- dbosruntime.Config (internal/dbosruntime/runtime.go). -/
structure Config where
  databaseURL : String
  appName : String
  queueName : String
  concurrency : Int
  applicationVersion : String
deriving DecidableEq, Repr

/-- Config.WithDefaults: fills in default values for optional fields, in the
order of the Go source (QueueName first, then Concurrency). -/
def Config.withDefaults (c : Config) : Config :=
  let c1 := if c.queueName = "" then { c with queueName := "default" } else c
  if c1.concurrency = 0 then { c1 with concurrency := 4 } else c1

/-- dbosruntime.Runtime: the retained state relevant to the embedded claims is
the (defaulted) configuration stored by NewRuntime. -/
structure Runtime where
  config : Config
deriving DecidableEq, Repr

/-- dbosruntime.NewRuntime: rejects an empty DatabaseURL, applies defaults to
a by-value copy of the config, and stores the defaulted config in the
Runtime. The dbos.NewDBOSContext call is external and modelled as
succeeding. -/
def NewRuntime (cfg : Config) : Except GoError Runtime :=
  if cfg.databaseURL = "" then .error "DBOS_SYSTEM_DATABASE_URL is required"
  else .ok { config := cfg.withDefaults }

/-- Runtime.Concurrency accessor. -/
def Runtime.Concurrency (r : Runtime) : Int := r.config.concurrency

/-- Runtime.QueueName accessor. -/
def Runtime.QueueName (r : Runtime) : String := r.config.queueName

/-- runner.Config (pkg/runner): configuration of the high-level runner and
client constructors. -/
structure RunnerConfig where
  databaseURL : String
  appName : String
  queueName : String
  concurrency : Int
  contentAPIURL : String
  applicationVersion : String
deriving DecidableEq, Repr

/-- runner.Client: holds the runtime it constructed. -/
structure Client where
  runtime : Runtime
deriving DecidableEq, Repr

/-- runner.NewClient (pkg/runner/client.go): builds a dbosruntime.Config with
Concurrency 0 (comment in source: client mode, do not process workflows) and
an unset ApplicationVersion, then calls NewRuntime. The workflow-runner
construction and the Launch call are external effects modelled as
succeeding. -/
def NewClient (cfg : RunnerConfig) : Except GoError Client :=
  match NewRuntime { databaseURL := cfg.databaseURL, appName := cfg.appName,
                     queueName := cfg.queueName, concurrency := 0,
                     applicationVersion := "" } with
  | .error e => .error ("failed to initialize DBOS: " ++ e)
  | .ok rt => .ok { runtime := rt }

/-- One row of the process_dedupe table (internal/dedupe/dedupe.go). -/
structure DedupeRow where
  pipelineName : String
  pipelineVersion : Int
  seenCount : Int
deriving DecidableEq, Repr

/-- The process_dedupe table, keyed by content_id (primary key). -/
abbrev DedupeTable := List (String × DedupeRow)

/-- The SQL upsert of Tracker.Record: insert with seen_count 1 on a fresh
content_id; on conflict, increment seen_count, refresh pipeline and
pipeline_version, and return the updated seen_count. -/
def dedupeUpsert : DedupeTable → String → String → Int → DedupeTable × Int
  | [], contentID, p, v => ([(contentID, ⟨p, v, 1⟩)], 1)
  | (k, row) :: rest, contentID, p, v =>
    if k = contentID then
      ((k, ⟨p, v, row.seenCount + 1⟩) :: rest, row.seenCount + 1)
    else
      let res := dedupeUpsert rest contentID p v
      ((k, row) :: res.1, res.2)

/-- Tracker.Record: records a submission and returns the new seen count
(the success path of the SQL round-trip; failures are injected at the
handler level, where the Go code handles them). -/
def Tracker.Record (t : DedupeTable) (contentID pipelineName : String)
    (pipelineVersion : Int) : DedupeTable × Int :=
  dedupeUpsert t contentID pipelineName pipelineVersion

/-- Seen count currently stored for a content_id (0 when absent), mirroring
Tracker.GetSeenCount. -/
def seenOf : DedupeTable → String → Int
  | [], _ => 0
  | (k, row) :: rest, contentID =>
    if k = contentID then row.seenCount else seenOf rest contentID

/-- One call to Tracker.Record, as issued by the submission handler. -/
structure RecordCall where
  contentID : String
  pipelineName : String
  pipelineVersion : Int
deriving DecidableEq, Repr

/-- Runs a sequence of Tracker.Record calls against the table, returning the
list of returned seen counts in call order. -/
def runRecords : DedupeTable → List RecordCall → List Int
  | _, [] => []
  | t, call :: rest =>
    let step := Tracker.Record t call.contentID call.pipelineName call.pipelineVersion
    step.2 :: runRecords step.1 rest

/-- Replies written by the async submission handler: http.Error with a status
code and message, or a JSON-encoded ProcessResponse with a status code. -/
inductive HTTPReply where
  | httpError (status : Nat) (message : String)
  | json (status : Nat) (body : ProcessResponse)
deriving DecidableEq, Repr

/-- AsyncHandler.HandleProcessAsync (handlers package), given a decoded POST
body. The tracker interaction is passed as its observed outcome:
none models a nil tracker, some (.error e) a failed Tracker.Record call,
some (.ok c) a successful one returning c. The RunAsync enqueue outcome is
likewise passed in. The returned Bool records whether RunAsync was invoked
(the workflow enqueue was attempted). -/
def HandleProcessAsync (recordOutcome : Option (Except GoError Int))
    (runAsync : Except GoError String) (req : ProcessRequest) :
    HTTPReply × Bool :=
  if req.contentID = "" then (.httpError 400 "content_id is required", false)
  else if req.job = "" then (.httpError 400 "job is required", false)
  else
    let seenCount : Int :=
      match recordOutcome with
      | some (.ok c) => c
      | _ => 0
    match runAsync with
    | .error e => (.httpError 500 ("Failed to enqueue workflow: " ++ e), true)
    | .ok runID => (.json 202 { runID := runID, dedupeSeenCount := seenCount }, true)

/-- One PutDerived invocation observed during a workflow execution. -/
structure PutCall where
  contentID : String
  derivedType : String
  derivedVersion : Int
  meta : List (String × String)
deriving DecidableEq, Repr

/-- Collaborator outcomes for one execution of ThumbnailWorkflow.Execute
(the imaging variant of internal thumbnail workflow). Readers and images
are abstract: a reader is identified with the byte stream it yields and an
image with an opaque handle (Nat). Each field is the outcome the external
collaborator (content store, image codec) produces at the corresponding
call site of the Go source. -/
structure ThumbnailEnv where
  hasDerived : Except GoError Bool
  sourceExists : Except GoError Bool
  getReaderByContentID : Except GoError Bytes
  readAll : Bytes → Except GoError Bytes
  decode : Bytes → Except GoError (Nat × String)
  fit : Nat → Int → Int → Nat
  dims : Nat → Int × Int
  jpegEncode : Nat → Except GoError Bytes
  putDerived : PutCall → Bytes → Except GoError String

/-- strconv.Atoi over an optional sign and decimal digits (the handled
inputs of the dimension parsing; overflow of the 64-bit range is not
modelled as the workflow only compares the result against 0). -/
def goAtoi (s : String) : Except GoError Int :=
  let step : Option Nat → Char → Option Nat := fun acc c =>
    match acc with
    | none => none
    | some n => if c.isDigit then some (n * 10 + (c.toNat - 48)) else none
  let parseDigits : List Char → Option Nat := fun cs =>
    if cs.isEmpty then none else cs.foldl step (some 0)
  match s.toList with
  | '+' :: rest =>
    match parseDigits rest with
    | some n => .ok (Int.ofNat n)
    | none => .error "invalid syntax"
  | '-' :: rest =>
    match parseDigits rest with
    | some n => .ok (-(Int.ofNat n))
    | none => .error "invalid syntax"
  | cs =>
    match parseDigits cs with
    | some n => .ok (Int.ofNat n)
    | none => .error "invalid syntax"

/-- The width/height extraction of ThumbnailWorkflow.Execute: a metadata
entry overrides the default only when strconv.Atoi succeeds and the value is
positive. A nil metadata map behaves as the empty list. -/
def dimFromMetadata (metadata : List (String × String)) (key : String)
    (dflt : Int) : Int :=
  match metadata.lookup key with
  | some s =>
    match goAtoi s with
    | .ok n => if n > 0 then n else dflt
    | .error _ => dflt
  | none => dflt

/-- ThumbnailWorkflow.validateRequest: requires Versions to hold a thumbnail
entry with value at least 1; content_id is validated at the HTTP handler
level (source comment). -/
def ThumbnailWorkflow.validateRequest (req : ProcessRequest) : Option GoError :=
  match req.versions.lookup DerivedTypeThumbnail with
  | none => some "thumbnail version not provided in versions map"
  | some version =>
    if version < 1 then some ("invalid thumbnail version: " ++ toString version)
    else none

/-- ThumbnailWorkflow.Execute (imaging variant), branch by branch. Returns
the WorkflowResult together with the list of PutDerived invocations made
during the execution. A HasDerived error is logged and execution continues
(source comment: continue anyway, do not fail on check error); only a clean
true answer short-circuits into the skipped result. -/
def ThumbnailWorkflow.Execute (env : ThumbnailEnv) (req : ProcessRequest) :
    WorkflowResult × List PutCall :=
  match ThumbnailWorkflow.validateRequest req with
  | some e =>
    ({ success := false, error := some ("validation failed: " ++ e), outputs := [] }, [])
  | none =>
    let derivedType := DerivedTypeThumbnail
    let derivedVersion := (req.versions.lookup derivedType).getD 0
    match env.hasDerived with
    | .ok true =>
      ({ success := true, error := none,
         outputs := [("content_id", .str req.contentID),
                     ("derived_type", .str derivedType),
                     ("version", .int derivedVersion),
                     ("skipped", .bool true)] }, [])
    | _ =>
      match env.sourceExists with
      | .error e =>
        ({ success := false, error := some ("content check failed: " ++ e), outputs := [] }, [])
      | .ok false =>
        ({ success := false, error := some ("source content not found: " ++ req.contentID),
           outputs := [] }, [])
      | .ok true =>
        match env.getReaderByContentID with
        | .error e =>
          ({ success := false, error := some ("download failed: " ++ e), outputs := [] }, [])
        | .ok reader =>
          match env.readAll reader with
          | .error e =>
            ({ success := false, error := some ("image read failed: " ++ e), outputs := [] }, [])
          | .ok imageData =>
            match env.decode imageData with
            | .error e =>
              ({ success := false, error := some ("image decode failed: " ++ e), outputs := [] }, [])
            | .ok img =>
              let width := dimFromMetadata req.metadata "width" 300
              let height := dimFromMetadata req.metadata "height" 300
              let thumbnail := env.fit img.1 width height
              let actual := env.dims thumbnail
              match env.jpegEncode thumbnail with
              | .error e =>
                ({ success := false, error := some ("JPEG encode failed: " ++ e), outputs := [] }, [])
              | .ok buf =>
                let meta : List (String × String) :=
                  [("file_name", "thumbnail_v" ++ toString derivedVersion ++ ".jpg"),
                   ("width", toString actual.1),
                   ("height", toString actual.2),
                   ("mime_type", "image/jpeg")]
                let call : PutCall := ⟨req.contentID, derivedType, derivedVersion, meta⟩
                match env.putDerived call buf with
                | .error e =>
                  ({ success := false, error := some ("derived write failed: " ++ e),
                     outputs := [] }, [call])
                | .ok derivedID =>
                  ({ success := true, error := none,
                     outputs := [("content_id", .str req.contentID),
                                 ("derived_id", .str derivedID),
                                 ("derived_type", .str derivedType),
                                 ("version", .int derivedVersion)] }, [call])

/-- A derived-content record of the external simple-content store, as both
gateway adapters observe it: parent content id, derivation type, variant
string, and status. -/
structure DerivedEntry where
  parentID : String
  derivationType : String
  variant : String
  status : String
deriving DecidableEq, Repr

/-- The external content store as the set of derived-content records. -/
abbrev ContentStore := List DerivedEntry

/-- Hexadecimal digit test of the uuid package. -/
def isHexDigit (c : Char) : Bool :=
  c.isDigit || ('a' ≤ c && c ≤ 'f') || ('A' ≤ c && c ≤ 'F')

/-- Shape test for the canonical 8-4-4-4-12 UUID form. -/
def uuidShape (cs : List Char) : Bool :=
  cs.length = 36 &&
  (List.range 36).all (fun i =>
    if i = 8 || i = 13 || i = 18 || i = 23 then cs.getD i ' ' == '-'
    else isHexDigit (cs.getD i ' '))

/-- uuid.Parse followed by rendering back to a string: accepts the canonical
hyphenated form and normalizes case (the other forms uuid.Parse accepts,
such as the urn prefix, are not exercised by the pipeline and are omitted). -/
def goUuidParse (s : String) : Option String :=
  if uuidShape s.toList then some (String.mk (s.toList.map Char.toLower)) else none

/-- simplecontent.Service.ListDerivedContent with the WithParentID and
WithDerivationType options: the store entries for that parent and type. -/
def ListDerivedContent (store : ContentStore) (parentID derivationType : String) :
    List DerivedEntry :=
  store.filter (fun d => d.parentID == parentID && d.derivationType == derivationType)

/-- DerivedWriter.HasDerived, the embedded adapter (storage package): parses
the content id as a UUID, lists derived content for that parent and type,
and reports true when any listed entry has the requested derivation type.
The derived version argument is not consulted (the source carries a TODO
about version checking via the variant). -/
def DerivedWriter.HasDerived (store : ContentStore) (contentID derivedType : String)
    (derivedVersion : Int) : Except GoError Bool :=
  match goUuidParse contentID with
  | none => .error "invalid content ID"
  | some parentID =>
    let derived := ListDerivedContent store parentID derivedType
    .ok (derived.any (fun d => d.derivationType == derivedType))

/-- HTTPDerivedWriter.HasDerived, the HTTP adapter (storage package): builds
the variant string from type and version, fetches the derived list for the
content id, and reports true when an entry matches the variant with status
uploaded or processed. Transport-level failures of the HTTP exchange are
abstracted away; the exchange is modelled as reading the store. -/
def HTTPDerivedWriter.HasDerived (store : ContentStore) (contentID derivedType : String)
    (derivedVersion : Int) : Except GoError Bool :=
  let variant := derivedType ++ "_v" ++ toString derivedVersion
  let derivedList := store.filter (fun d => d.parentID == contentID)
  .ok (derivedList.any (fun d =>
    d.variant == variant && (d.status == "uploaded" || d.status == "processed")))

/-- Spec-side predicate, written from the specification words for the
refinement comparison of claim C2: a ready artifact exists for the exact
(parent, type, version) tuple. -/
def specHasExactTuple (store : ContentStore) (parentID derivedType : String)
    (derivedVersion : Int) : Bool :=
  store.any (fun d =>
    d.parentID == parentID && d.derivationType == derivedType &&
    d.variant == derivedType ++ "_v" ++ toString derivedVersion &&
    (d.status == "uploaded" || d.status == "processed"))

/-- A registered workflow, identified with the function its Execute method
computes from the request and run id. -/
abbrev WorkflowFn := ProcessRequest → String → WorkflowResult

/-- The WorkflowRunner registry: job name to registered workflow. -/
abbrev Registry := List (String × WorkflowFn)

/-- WorkflowRunner.Run (internal/workflows/types.go): looks the job up in the
registry; an unregistered job yields the ErrWorkflowNotFound result.
The returned list records the job names whose Execute method was invoked. -/
def WorkflowRunner.Run (registry : Registry) (req : ProcessRequest)
    (runID : String) : WorkflowResult × List String :=
  match registry.lookup req.job with
  | none =>
    ({ success := false, error := some errWorkflowNotFound, outputs := [] }, [])
  | some wf => (wf req runID, [req.job])

/-- WorkflowRunner.executeWorkflowDBOS: the DBOS-dispatched wrapper; the
registry lookup precedes the GetWorkflowID call, whose outcome is passed
in. The returned list records invoked Execute methods, as in Run. -/
def WorkflowRunner.executeWorkflowDBOS (registry : Registry)
    (getWorkflowID : Except GoError String) (req : ProcessRequest) :
    WorkflowResult × List String :=
  match registry.lookup req.job with
  | none =>
    ({ success := false, error := some errWorkflowNotFound, outputs := [] }, [])
  | some wf =>
    match getWorkflowID with
    | .error e => ({ success := false, error := some e, outputs := [] }, [])
    | .ok workflowID => (wf req workflowID, [req.job])

/-- handleHealth (pipeline worker binaries): writes status 200 with a
healthy JSON body. The Go handler reads no worker state; the two arguments
represent the time since the last completed poll cycle and the poll
interval, so the specified healthiness condition can be stated, and are
demonstrably unused. -/
def handleHealth (elapsedSinceLastPoll pollInterval : Nat) : Nat × String :=
  (200, "healthy")

/-! Theorems, one group per claim. -/

/-- Claim C1 (skip-if-present): whenever the request passes validation (the
versions map holds a thumbnail entry with value at least 1) and HasDerived
answers true without error, ThumbnailWorkflow.Execute returns a successful
result whose outputs contain skipped = true, and PutDerived is never
invoked. -/
theorem thumbnail_skip_if_present (env : ThumbnailEnv) (req : ProcessRequest)
    (v : Int) (hv : req.versions.lookup DerivedTypeThumbnail = some v)
    (hv1 : 1 ≤ v) (hh : env.hasDerived = .ok true) :
    (ThumbnailWorkflow.Execute env req).1.success = true ∧
    ("skipped", GoValue.bool true) ∈ (ThumbnailWorkflow.Execute env req).1.outputs ∧
    (ThumbnailWorkflow.Execute env req).2 = [] := by
  have hval : ThumbnailWorkflow.validateRequest req = none := by
    simp only [ThumbnailWorkflow.validateRequest, hv]
    rw [if_neg (by omega)]
  simp [ThumbnailWorkflow.Execute, hval, hh]

/-- Environment of the C1 witness: the derived artifact is already present. -/
def c1WitnessEnv : ThumbnailEnv where
  hasDerived := .ok true
  sourceExists := .ok true
  getReaderByContentID := .ok []
  readAll := fun b => .ok b
  decode := fun _ => .ok (0, "jpeg")
  fit := fun img _ _ => img
  dims := fun _ => (300, 300)
  jpegEncode := fun _ => .ok []
  putDerived := fun _ _ => .ok "derived-1"

/-- Request of the C1 witness: a valid thumbnail request with version 1. -/
def c1WitnessReq : ProcessRequest where
  contentID := "11111111-1111-1111-1111-111111111111"
  objectKey := ""
  contentHash := none
  job := "thumbnail"
  versions := [("thumbnail", 1)]
  metadata := []

/-- Witness for claim C1 at a concrete environment and request. -/
theorem thumbnail_skip_if_present_witness :
    (ThumbnailWorkflow.Execute c1WitnessEnv c1WitnessReq).1.success = true ∧
    ("skipped", GoValue.bool true) ∈
      (ThumbnailWorkflow.Execute c1WitnessEnv c1WitnessReq).1.outputs ∧
    (ThumbnailWorkflow.Execute c1WitnessEnv c1WitnessReq).2 = [] :=
  thumbnail_skip_if_present c1WitnessEnv c1WitnessReq 1 (by decide) (by decide) rfl

/-- Store of the C2 failing input: one ready thumbnail artifact at version 1. -/
def c2Store : ContentStore :=
  [{ parentID := "11111111-1111-1111-1111-111111111111",
     derivationType := "thumbnail", variant := "thumbnail_v1",
     status := "uploaded" }]

/-- Claim C2, evaluated at the failing input: the embedded adapter's
HasDerived answers true for version 2 although the store only holds a
version-1 artifact for that parent and type, so it does not implement the
exact-tuple test the specification states (the spec-side predicate is false
there); the HTTP adapter answers false on the same input as specified. -/
theorem hasDerived_ignores_version :
    DerivedWriter.HasDerived c2Store
      "11111111-1111-1111-1111-111111111111" "thumbnail" 2 = .ok true ∧
    specHasExactTuple c2Store
      "11111111-1111-1111-1111-111111111111" "thumbnail" 2 = false ∧
    HTTPDerivedWriter.HasDerived c2Store
      "11111111-1111-1111-1111-111111111111" "thumbnail" 2 = .ok false := by
  refine ⟨rfl, by decide, rfl⟩

/-- Request of the C3 counterexample: non-empty content_id and job, but no
thumbnail entry in the versions map. -/
def c3Req : ProcessRequest where
  contentID := "c1"
  objectKey := ""
  contentHash := none
  job := "thumbnail"
  versions := []
  metadata := []

/-- Counterexample to claim C3: a request whose versions map lacks the
thumbnail entry is not rejected at submission time; the handler answers
202 Accepted and enqueues the workflow. -/
theorem submission_accepts_missing_version :
    c3Req.versions.lookup DerivedTypeThumbnail = none ∧
    HandleProcessAsync (some (.ok 1)) (.ok "thumbnail-c1-1") c3Req =
      (.json 202 { runID := "thumbnail-c1-1", dedupeSeenCount := 1 }, true) := by
  refine ⟨?_, ?_⟩ <;> decide

/-- Claim C3 amended: submission-time validation only rejects an empty
content_id or an empty job name (HTTP 400, nothing enqueued). A missing
versions entry and an unknown job name are accepted and enqueued at
submission time; the missing thumbnail version then fails validation inside
ThumbnailWorkflow.Execute (with no PutDerived call), and the unknown job
name surfaces only at dispatch time as the ErrWorkflowNotFound result. -/
theorem submission_validation_amended
    (recordOutcome : Option (Except GoError Int)) (runAsync : Except GoError String)
    (req1 req2 req3 : ProcessRequest) (env : ThumbnailEnv) (registry : Registry)
    (runID rid : String) (c : Int)
    (h1 : req1.contentID = "")
    (h2 : req2.contentID ≠ "") (h3 : req2.job = "")
    (h4 : req3.contentID ≠ "") (h5 : req3.job ≠ "")
    (h6 : req3.versions.lookup DerivedTypeThumbnail = none)
    (h7 : registry.lookup req3.job = none) :
    HandleProcessAsync recordOutcome runAsync req1 =
      (.httpError 400 "content_id is required", false) ∧
    HandleProcessAsync recordOutcome runAsync req2 =
      (.httpError 400 "job is required", false) ∧
    HandleProcessAsync (some (.ok c)) (.ok rid) req3 =
      (.json 202 { runID := rid, dedupeSeenCount := c }, true) ∧
    ThumbnailWorkflow.Execute env req3 =
      ({ success := false,
         error := some "validation failed: thumbnail version not provided in versions map",
         outputs := [] }, []) ∧
    WorkflowRunner.Run registry req3 runID =
      ({ success := false, error := some errWorkflowNotFound, outputs := [] }, []) := by
  refine ⟨?_, ?_, ?_, ?_, ?_⟩
  · simp [HandleProcessAsync, h1]
  · simp [HandleProcessAsync, h2, h3]
  · simp [HandleProcessAsync, h4, h5]
  · simp [ThumbnailWorkflow.Execute, ThumbnailWorkflow.validateRequest, h6]
  · simp [WorkflowRunner.Run, h7]

/-- Environment of the C3 amended witness (never consulted on the
validation-failure path). -/
def c3WitnessEnv : ThumbnailEnv where
  hasDerived := .ok false
  sourceExists := .ok true
  getReaderByContentID := .ok []
  readAll := fun b => .ok b
  decode := fun _ => .ok (0, "jpeg")
  fit := fun img _ _ => img
  dims := fun _ => (300, 300)
  jpegEncode := fun _ => .ok []
  putDerived := fun _ _ => .ok "derived-1"

/-- Request of the C3 amended witness with an empty content_id. -/
def c3Req1 : ProcessRequest :=
  { contentID := "", objectKey := "", contentHash := none, job := "thumbnail",
    versions := [], metadata := [] }

/-- Request of the C3 amended witness with an empty job. -/
def c3Req2 : ProcessRequest :=
  { contentID := "c1", objectKey := "", contentHash := none, job := "",
    versions := [], metadata := [] }

/-- Witness for the amended claim C3 at concrete requests, an empty registry
and the C1 witness environment restricted to this claim. -/
theorem submission_validation_amended_witness :
    HandleProcessAsync none (.ok "r") c3Req1 =
      (.httpError 400 "content_id is required", false) ∧
    HandleProcessAsync none (.ok "r") c3Req2 =
      (.httpError 400 "job is required", false) ∧
    HandleProcessAsync (some (.ok 1)) (.ok "thumbnail-c1-2") c3Req =
      (.json 202 { runID := "thumbnail-c1-2", dedupeSeenCount := 1 }, true) ∧
    ThumbnailWorkflow.Execute c3WitnessEnv c3Req =
      ({ success := false,
         error := some "validation failed: thumbnail version not provided in versions map",
         outputs := [] }, []) ∧
    WorkflowRunner.Run [] c3Req "run-1" =
      ({ success := false, error := some errWorkflowNotFound, outputs := [] }, []) :=
  submission_validation_amended none (.ok "r") c3Req1 c3Req2 c3Req c3WitnessEnv []
    "run-1" "thumbnail-c1-2" 1 (by decide) (by decide) (by decide) (by decide)
    (by decide) (by decide) rfl

/-- Claim C4: an unregistered job name yields the ErrWorkflowNotFound failure
result from both WorkflowRunner.Run and the DBOS-dispatched
executeWorkflowDBOS, and no registered workflow's Execute is invoked. -/
theorem run_unknown_job_not_found (registry : Registry) (req : ProcessRequest)
    (runID : String) (gwid : Except GoError String)
    (h : registry.lookup req.job = none) :
    WorkflowRunner.Run registry req runID =
      ({ success := false, error := some errWorkflowNotFound, outputs := [] }, []) ∧
    WorkflowRunner.executeWorkflowDBOS registry gwid req =
      ({ success := false, error := some errWorkflowNotFound, outputs := [] }, []) := by
  constructor
  · simp [WorkflowRunner.Run, h]
  · simp [WorkflowRunner.executeWorkflowDBOS, h]

/-- Request of the C4 witness: a job name with no registered workflow. -/
def c4Req : ProcessRequest where
  contentID := "c2"
  objectKey := ""
  contentHash := none
  job := "ocr"
  versions := [("ocr_text", 1)]
  metadata := []

/-- Witness for claim C4 with an empty registry and a concrete request. -/
theorem run_unknown_job_not_found_witness :
    WorkflowRunner.Run [] c4Req "run-2" =
      ({ success := false, error := some errWorkflowNotFound, outputs := [] }, []) ∧
    WorkflowRunner.executeWorkflowDBOS [] (.ok "run-2") c4Req =
      ({ success := false, error := some errWorkflowNotFound, outputs := [] }, []) :=
  run_unknown_job_not_found [] c4Req "run-2" (.ok "run-2") rfl

/-- Counterexample to claim C5: mapDBOSStatus sends the failed-attempt
status ERROR to failed, not to running as the claim requires for a
still-retrying failure. -/
theorem mapDBOSStatus_error_is_failed :
    mapDBOSStatus "ERROR" = "failed" ∧ mapDBOSStatus "ERROR" ≠ "running" := by
  refine ⟨rfl, ?_⟩ ; decide

/-- Claim C5 amended: succeeded runs report succeeded and the deadlettered
exhaustion status reports failed, as claimed; but a failed attempt (ERROR)
also reports failed rather than running. Only statuses outside the five
recognized ones report running; PENDING and ENQUEUED report pending. -/
theorem mapDBOSStatus_amended (s : String)
    (h1 : s ≠ "PENDING") (h2 : s ≠ "ENQUEUED") (h3 : s ≠ "SUCCESS")
    (h4 : s ≠ "ERROR") (h5 : s ≠ "RETRIES_EXCEEDED") :
    mapDBOSStatus "SUCCESS" = "succeeded" ∧
    mapDBOSStatus "RETRIES_EXCEEDED" = "failed" ∧
    mapDBOSStatus "ERROR" = "failed" ∧
    mapDBOSStatus "PENDING" = "pending" ∧
    mapDBOSStatus "ENQUEUED" = "pending" ∧
    mapDBOSStatus s = "running" := by
  refine ⟨rfl, rfl, rfl, rfl, rfl, ?_⟩
  simp [mapDBOSStatus, h1, h2, h3, h4, h5]

/-- Witness for the amended claim C5 at the CANCELLED status. -/
theorem mapDBOSStatus_amended_witness :
    mapDBOSStatus "SUCCESS" = "succeeded" ∧
    mapDBOSStatus "RETRIES_EXCEEDED" = "failed" ∧
    mapDBOSStatus "ERROR" = "failed" ∧
    mapDBOSStatus "PENDING" = "pending" ∧
    mapDBOSStatus "ENQUEUED" = "pending" ∧
    mapDBOSStatus "CANCELLED" = "running" :=
  mapDBOSStatus_amended "CANCELLED" (by decide) (by decide) (by decide)
    (by decide) (by decide)

/-- The upsert returns one more than the seen count previously stored for
the content id (1 on a fresh id). -/
theorem dedupeUpsert_snd (t : DedupeTable) (contentID p : String) (v : Int) :
    (dedupeUpsert t contentID p v).2 = seenOf t contentID + 1 := by
  induction t with
  | nil => simp [dedupeUpsert, seenOf]
  | cons hd rest ih =>
    obtain ⟨k, row⟩ := hd
    by_cases hk : k = contentID
    · simp [dedupeUpsert, seenOf, hk]
    · simp [dedupeUpsert, seenOf, hk, ih]

/-- The upsert increments the stored seen count of exactly the upserted
content id and leaves every other id's count unchanged. -/
theorem seenOf_dedupeUpsert (t : DedupeTable) (contentID p x : String) (v : Int) :
    seenOf (dedupeUpsert t contentID p v).1 x =
      seenOf t x + (if x = contentID then 1 else 0) := by
  induction t with
  | nil =>
    by_cases hx : x = contentID
    · subst hx
      simp [dedupeUpsert, seenOf]
    · have hx2 : ¬ contentID = x := fun h => hx h.symm
      simp [dedupeUpsert, seenOf, hx, hx2]
  | cons hd rest ih =>
    obtain ⟨k, row⟩ := hd
    by_cases hk : k = contentID
    · subst hk
      by_cases hx : k = x
      · subst hx
        simp [dedupeUpsert, seenOf]
      · have hx2 : ¬ x = k := fun h => hx h.symm
        simp [dedupeUpsert, seenOf, hx, hx2]
    · by_cases hx : k = x
      · subst hx
        simp [dedupeUpsert, seenOf, hk]
      · simp [dedupeUpsert, seenOf, hk, hx, ih]

/-- Position pre.length of a Record-call run: the answer for the call after
the prefix is the seen count the table already held for its content id, plus
the number of prefix calls for the same content id, plus one. -/
theorem runRecords_get (t : DedupeTable) (pre : List RecordCall)
    (call : RecordCall) (post : List RecordCall) :
    (runRecords t (pre ++ call :: post)).get? pre.length =
      some (seenOf t call.contentID +
        ((pre.countP (fun d => d.contentID == call.contentID) : Nat) : Int) + 1) := by
  induction pre generalizing t with
  | nil =>
    simp [runRecords, Tracker.Record, dedupeUpsert_snd]
  | cons d pre ih =>
    have step := ih (dedupeUpsert t d.contentID d.pipelineName d.pipelineVersion).1
    have hrun : (runRecords t ((d :: pre) ++ call :: post)).get? (d :: pre).length =
        (runRecords (dedupeUpsert t d.contentID d.pipelineName d.pipelineVersion).1
          (pre ++ call :: post)).get? pre.length := rfl
    rw [hrun, step, seenOf_dedupeUpsert, List.countP_cons]
    by_cases hd : call.contentID = d.contentID
    · have hd2 : (d.contentID == call.contentID) = true := by simp [hd]
      rw [hd2]
      simp only [if_pos hd, if_pos rfl]
      push_cast
      ring_nf
    · have hd2 : (d.contentID == call.contentID) = false := by
        simp only [beq_eq_false_iff_ne, ne_eq]
        exact fun h => hd h.symm
      rw [hd2]
      simp [hd]

/-- Claim C6 (dedup ledger counting): over any sequence of Tracker.Record
calls starting from an empty ledger, the call after a prefix holding k
earlier calls for the same content id (in any interleaving and with any
pipeline and version arguments) returns seen count k + 1 - so the n-th call
for a content id returns n; and for a valid request the submission handler
reports exactly the value Record returned as dedupe_seen_count. -/
theorem dedupe_seen_count (pre post : List RecordCall) (call : RecordCall)
    (req : ProcessRequest) (rid : String) (c : Int)
    (h1 : req.contentID ≠ "") (h2 : req.job ≠ "") :
    (runRecords [] (pre ++ call :: post)).get? pre.length =
      some (((pre.countP (fun d => d.contentID == call.contentID) : Nat) : Int) + 1) ∧
    HandleProcessAsync (some (.ok c)) (.ok rid) req =
      (.json 202 { runID := rid, dedupeSeenCount := c }, true) := by
  constructor
  · have := runRecords_get [] pre call post
    simpa [seenOf] using this
  · simp [HandleProcessAsync, h1, h2]

/-- Record calls of the C6 witness: two submissions for content a around one
for content b, with varying pipeline arguments. -/
def c6Calls : List RecordCall :=
  [⟨"a", "thumbnail", 1⟩, ⟨"b", "thumbnail", 1⟩]

/-- The call of the C6 witness whose answer is inspected: the second
submission for content a. -/
def c6Call : RecordCall := ⟨"a", "ocr", 2⟩

/-- Request of the C6 witness. -/
def c6Req : ProcessRequest :=
  { contentID := "a", objectKey := "", contentHash := none, job := "thumbnail",
    versions := [("thumbnail", 1)], metadata := [] }

/-- Witness for claim C6: the second call for content a (after one earlier
call for a and one for b) returns seen count 2, and the handler reports the
returned count. -/
theorem dedupe_seen_count_witness :
    (runRecords [] (c6Calls ++ c6Call :: [])).get? c6Calls.length =
      some (((c6Calls.countP (fun d => d.contentID == c6Call.contentID) : Nat) : Int) + 1) ∧
    HandleProcessAsync (some (.ok 2)) (.ok "run-6") c6Req =
      (.json 202 { runID := "run-6", dedupeSeenCount := 2 }, true) :=
  dedupe_seen_count c6Calls [] c6Call c6Req "run-6" 2 (by decide) (by decide)

/-- Claim C7 (dedupe never gates): for a valid submission whose dedupe
outcome is a nil tracker or a failed Record call, the handler still invokes
RunAsync, and when the enqueue succeeds it answers 202 Accepted with
dedupe_seen_count 0. -/
theorem dedupe_never_gates (recordOutcome : Option (Except GoError Int))
    (runAsync : Except GoError String) (req : ProcessRequest) (rid : String)
    (h1 : req.contentID ≠ "") (h2 : req.job ≠ "")
    (hrec : recordOutcome = none ∨ ∃ e, recordOutcome = some (.error e))
    (hrun : runAsync = .ok rid) :
    HandleProcessAsync recordOutcome runAsync req =
      (.json 202 { runID := rid, dedupeSeenCount := 0 }, true) := by
  subst hrun
  rcases hrec with h | ⟨e, h⟩ <;> subst h <;> simp [HandleProcessAsync, h1, h2]

/-- Request of the C7 witness. -/
def c7Req : ProcessRequest :=
  { contentID := "c7", objectKey := "", contentHash := none, job := "thumbnail",
    versions := [("thumbnail", 1)], metadata := [] }

/-- Witness for claim C7 with a failed Record call. -/
theorem dedupe_never_gates_witness :
    HandleProcessAsync (some (.error "db down")) (.ok "run-7") c7Req =
      (.json 202 { runID := "run-7", dedupeSeenCount := 0 }, true) :=
  dedupe_never_gates (some (.error "db down")) (.ok "run-7") c7Req "run-7"
    (by decide) (by decide) (Or.inr ⟨"db down", rfl⟩) rfl

/-- Counterexample to claim C8: with a poll interval of 1 and 100 time units
since the last completed poll cycle - far beyond twice the interval - the
health endpoint still answers 200 healthy, although the claim requires it to
report unhealthy there. -/
theorem handleHealth_stalled_still_healthy :
    handleHealth 100 1 = (200, "healthy") ∧ 2 * 1 < 100 := by
  exact ⟨rfl, by decide⟩

/-- Claim C8 amended: the health endpoint is a plain liveness probe; it
answers 200 healthy for every poll-timing state and cannot report
unhealthy when polling has stalled. -/
theorem handleHealth_always_healthy (elapsedSinceLastPoll pollInterval : Nat) :
    handleHealth elapsedSinceLastPoll pollInterval = (200, "healthy") := rfl

/-- Claim C10: Config.WithDefaults maps Concurrency 0 to 4 and an empty
QueueName to "default"; consequently NewClient - which passes Concurrency 0
intending an enqueue-only client - yields a runtime whose Concurrency()
reports 4, not 0. -/
theorem client_concurrency_defaulted (c : Config) (cfg : RunnerConfig)
    (hc : c.concurrency = 0) (hq : c.queueName = "")
    (hdb : cfg.databaseURL ≠ "") :
    c.withDefaults.concurrency = 4 ∧
    c.withDefaults.queueName = "default" ∧
    ∃ client : Client, NewClient cfg = .ok client ∧
      client.runtime.Concurrency = 4 ∧ client.runtime.Concurrency ≠ 0 := by
  refine ⟨?_, ?_, ?_⟩
  · simp [Config.withDefaults, hq, hc]
  · simp [Config.withDefaults, hq, hc]
  · refine ⟨⟨⟨Config.withDefaults
        ⟨cfg.databaseURL, cfg.appName, cfg.queueName, 0, ""⟩⟩⟩, ?_, ?_, ?_⟩
    · simp [NewClient, NewRuntime, hdb]
    · by_cases hqn : cfg.queueName = "" <;>
        simp [Runtime.Concurrency, Config.withDefaults, hqn]
    · by_cases hqn : cfg.queueName = "" <;>
        simp [Runtime.Concurrency, Config.withDefaults, hqn]

/-- Config of the C10 witness, as runner.NewClient receives it. -/
def c10Cfg : RunnerConfig :=
  { databaseURL := "postgresql://localhost:5432/dbos", appName := "app",
    queueName := "", concurrency := 7, contentAPIURL := "",
    applicationVersion := "" }

/-- Dbosruntime config of the C10 witness with both optional fields unset. -/
def c10DbosCfg : Config :=
  { databaseURL := "postgresql://localhost:5432/dbos", appName := "app",
    queueName := "", concurrency := 0, applicationVersion := "" }

/-- Witness for claim C10 at a concrete configuration. -/
theorem client_concurrency_defaulted_witness :
    c10DbosCfg.withDefaults.concurrency = 4 ∧
    c10DbosCfg.withDefaults.queueName = "default" ∧
    ∃ client : Client, NewClient c10Cfg = .ok client ∧
      client.runtime.Concurrency = 4 ∧ client.runtime.Concurrency ≠ 0 :=
  client_concurrency_defaulted c10DbosCfg c10Cfg rfl rfl (by decide)

end SCP
